import Mathlib

/-!
Verification of the core of the lms-react-ui authentication front-end:
the API response normalizer (src/services/apiService.js), the field
validation pipeline (src/utils/validation.js), and the session / page
state machine (src/App.js together with the Auth and Profile page
components). JavaScript values coming out of `response.json()` are
modelled by a `Json` inductive; the JS distinction between an absent
property (`undefined`) and a present one is modelled with `Option Json`.
-/

namespace LmsUi

/-- JSON values as produced by `response.json()` (i.e. `JSON.parse`). -/
inductive Json where
  | null : Json
  | bool (b : Bool) : Json
  | num (n : Int) : Json
  | str (s : String) : Json
  | arr (elems : List Json) : Json
  | obj (fields : List (String × Json)) : Json

/-- JavaScript property access `v[key]` on a parsed JSON value: an object
yields the binding of the key (`none` models JS `undefined` for an absent
key), and property access on any non-object yields `undefined`. Property
access on `null` throws a TypeError in JS; callers that can reach it on
`null` model the throw explicitly before calling this. -/
def getField : Json → String → Option Json
  | Json.obj fields, key => (fields.find? (fun p => p.1 == key)).map (fun p => p.2)
  | _, _ => none

/-- JavaScript truthiness of a parsed JSON value. -/
def jsTruthy : Json → Bool
  | Json.null => false
  | Json.bool b => b
  | Json.num n => n != 0
  | Json.str s => s != ""
  | Json.arr _ => true
  | Json.obj _ => true

/-- Truthiness of a possibly-absent value (JS `undefined` is falsy). -/
def truthyOpt : Option Json → Bool
  | none => false
  | some v => jsTruthy v

/-- JavaScript `a || b` where `a` is a possibly-absent JSON value:
returns `a` when truthy, otherwise the default `b`. -/
def jsOr (a : Option Json) (b : Json) : Json :=
  match a with
  | some v => if jsTruthy v then v else b
  | none => b

/-- The check `typeof r === "object" && r !== null` from
src/services/apiService.js line 63: true exactly for objects and arrays
(JS arrays have typeof "object"). -/
def isNonNullObject : Json → Bool
  | Json.obj _ => true
  | Json.arr _ => true
  | _ => false

/-- True exactly on the JSON value `null`. -/
def isNull : Json → Bool
  | Json.null => true
  | _ => false

/-- The normalized result returned by `apiService.request`: either
`{success:true, data}` (the data field may be absent when the body had no
`data` key) or `{success:false, error}` (the error field may be absent,
see the `return {success:false, error: rawJsonResponse.error}` branch). -/
inductive ApiResult where
  | ok (data : Option Json) : ApiResult
  | fail (error : Option Json) : ApiResult

/-- The structured error object the normalizer builds:
`{message, code}` plus a `details` key when `details` is `some`. -/
def errEnvelope (message : Json) (code : String) (details : Option Json) : Json :=
  Json.obj ([("message", message), ("code", Json.str code)] ++
    (match details with
     | some d => [("details", d)]
     | none => []))

/-- The body of the try-block of `apiService.request` after
`response.json()` succeeds (src/services/apiService.js lines 46-77):
classifies the parsed body into the normalized envelope. Returns `none`
when the classification itself throws, which happens exactly when the
body is the JSON value `null` (the very first step,
`rawJsonResponse.success !== undefined`, is then a property access on
`null` and raises a TypeError that the surrounding catch absorbs). -/
def classify (raw : Json) : Option ApiResult :=
  if isNull raw then none
  else
    match getField raw "success" with
    | some sv =>
      if jsTruthy sv then
        some (ApiResult.ok (getField raw "data"))
      else if truthyOpt (getField raw "errors") then
        some (ApiResult.fail (some (errEnvelope
          (jsOr (getField raw "message") (Json.str "Validation failed"))
          "VALIDATION_ERROR"
          (getField raw "errors"))))
      else
        some (ApiResult.fail (getField raw "error"))
    | none =>
      if isNonNullObject raw && !truthyOpt (getField raw "error")
          && !truthyOpt (getField raw "errors") then
        some (ApiResult.ok (some raw))
      else
        some (ApiResult.fail (some (errEnvelope
          (jsOr (getField raw "message")
            (Json.str "An unexpected API response format was received."))
          "UNEXPECTED_RESPONSE"
          (some raw))))

/-- The catch-block result of `apiService.request`
(src/services/apiService.js lines 78-87). -/
def networkError : ApiResult :=
  ApiResult.fail (some (errEnvelope
    (Json.str "Network error or server unreachable.") "NETWORK_ERROR" none))

/-- The function `apiService.request`, abstracted over the transport
outcome: `Except.error` models a rejected fetch or a body that fails to
parse as JSON; `Except.ok` carries the parsed body. Every exception
raised inside the try-block, including the TypeError thrown while
classifying a `null` body, is caught by the same handler and converted
to the NETWORK_ERROR envelope. -/
def request (outcome : Except String Json) : ApiResult :=
  match outcome with
  | Except.error _ => networkError
  | Except.ok raw => (classify raw).getD networkError

/-- A value with a property binding is not the JSON value null (property
access on null would have thrown). -/
theorem isNull_false_of_getField {raw : Json} {k : String} {v : Json}
    (h : getField raw k = some v) : isNull raw = false := by
  cases raw <;> simp_all [getField, isNull]

/-- The concrete body `{foo:"bar", error:null}` from the spec test. -/
def cexBodyC1 : Json :=
  Json.obj [("foo", Json.str "bar"), ("error", Json.null)]

/-- The errors object `{email:["bad"]}` of the spec test for C3. -/
def errsBodyC3 : Json := Json.obj [("email", Json.arr [Json.str "bad"])]

/-- A validation-failure body carrying an empty-string `message`, the
input separating `||` (the code) from `??` (the spec wording). -/
def cexBodyC3 : Json :=
  Json.obj [("success", Json.bool false), ("errors", errsBodyC3),
    ("message", Json.str "")]

/-- The body `{success:false, errors:{email:["bad"]}}` of the spec test. -/
def bodyC3 : Json :=
  Json.obj [("success", Json.bool false), ("errors", errsBodyC3)]

/-- C1 counterexample: on the body `{foo:"bar", error:null}` the
normalizer takes the assume-success branch and returns
`{success:true, data: rawBody}`; it does not return the
UNEXPECTED_RESPONSE error envelope the claim predicts, because the
fallback guard tests falsiness of the `error` field (a present `null`
value is falsy), not absence of the key. -/
theorem C1_counterexample :
    request (Except.ok cexBodyC1) = ApiResult.ok (some cexBodyC1)
    ∧ request (Except.ok cexBodyC1) ≠ ApiResult.fail (some (errEnvelope
        (Json.str "An unexpected API response format was received.")
        "UNEXPECTED_RESPONSE" (some cexBodyC1))) := by
  refine ⟨rfl, ?_⟩
  intro h
  simp [request, classify, cexBodyC1, getField, truthyOpt, jsTruthy,
    isNonNullObject, isNull] at h

/-- C1 (amended): a body with no `success` key that is a non-null object
whose `error` and `errors` fields are both falsy (absent, null, false, 0
or the empty string) is classified as a success payload
`{success:true, data: rawBody}`; in particular `{foo:"bar", error:null}`
takes this branch, not the UNEXPECTED_RESPONSE branch. -/
theorem C1_falsy_error_is_success (raw : Json)
    (hobj : isNonNullObject raw = true)
    (hsucc : getField raw "success" = none)
    (herr : truthyOpt (getField raw "error") = false)
    (herrs : truthyOpt (getField raw "errors") = false) :
    request (Except.ok raw) = ApiResult.ok (some raw) := by
  cases raw <;>
    simp_all [request, classify, isNonNullObject, isNull]

/-- Witness instantiating C1_falsy_error_is_success at
`{foo:"bar", error:null}`. -/
theorem C1_falsy_error_is_success_witness :
    request (Except.ok cexBodyC1) = ApiResult.ok (some cexBodyC1) :=
  C1_falsy_error_is_success cexBodyC1 rfl rfl rfl rfl

/-- C3 counterexample: on `{success:false, errors:{email:["bad"]},
message:""}` the message field of the input is present (the empty
string), yet the normalizer returns the default message
"Validation failed", because the code uses JS `||` (truthiness), not
presence of the key: the claim as stated predicts the message `""`. -/
theorem C3_counterexample :
    request (Except.ok cexBodyC3) = ApiResult.fail (some (errEnvelope
      (Json.str "Validation failed") "VALIDATION_ERROR" (some errsBodyC3)))
    ∧ request (Except.ok cexBodyC3) ≠ ApiResult.fail (some (errEnvelope
      (Json.str "") "VALIDATION_ERROR" (some errsBodyC3))) := by
  refine ⟨rfl, ?_⟩
  intro h
  simp [request, classify, cexBodyC3, errsBodyC3, getField, truthyOpt,
    jsTruthy, jsOr, errEnvelope, isNull] at h

/-- C3 (amended): whenever the `success` field is present and falsy and
the `errors` field is present and truthy, the normalizer returns the
VALIDATION_ERROR envelope with `details` set to the `errors` field and
`message` set to the `message` field when that field is truthy,
otherwise to "Validation failed"; in particular
`{success:false, errors:{email:["bad"]}}` yields the VALIDATION_ERROR
envelope whose details map `email` to `["bad"]`. -/
theorem C3_validation_error :
    (∀ (raw sv es : Json), getField raw "success" = some sv →
      jsTruthy sv = false →
      getField raw "errors" = some es → jsTruthy es = true →
      request (Except.ok raw) = ApiResult.fail (some (errEnvelope
        (jsOr (getField raw "message") (Json.str "Validation failed"))
        "VALIDATION_ERROR" (some es))))
    ∧ (request (Except.ok bodyC3) = ApiResult.fail (some (errEnvelope
        (Json.str "Validation failed") "VALIDATION_ERROR" (some errsBodyC3)))
      ∧ getField errsBodyC3 "email" = some (Json.arr [Json.str "bad"])) := by
  refine ⟨?_, rfl, rfl⟩
  intro raw sv es hs hfal hes ht
  have hn := isNull_false_of_getField hs
  simp [request, classify, hn, hs, hfal, truthyOpt, hes, ht]

/-- Witness instantiating C3_validation_error at
`{success:false, errors:{email:["bad"]}}`. -/
theorem C3_validation_error_witness :
    request (Except.ok bodyC3) = ApiResult.fail (some (errEnvelope
      (jsOr (getField bodyC3 "message") (Json.str "Validation failed"))
      "VALIDATION_ERROR" (some errsBodyC3))) :=
  C3_validation_error.1 bodyC3 (Json.bool false) errsBodyC3 rfl rfl rfl rfl

/-- C4: every transport-level failure (rejected fetch, network
exception, body that fails to parse as JSON) is caught and converted to
the NETWORK_ERROR envelope, and so is any exception raised inside the
try-block while classifying a parsed body; `request` is a total
function, so it always returns a result object and never propagates an
exception to the caller. -/
theorem C4_network_error_caught :
    (∀ msg : String, request (Except.error msg) = ApiResult.fail (some
      (errEnvelope (Json.str "Network error or server unreachable.")
        "NETWORK_ERROR" none)))
    ∧ (∀ raw : Json, classify raw = none →
      request (Except.ok raw) = ApiResult.fail (some
        (errEnvelope (Json.str "Network error or server unreachable.")
          "NETWORK_ERROR" none))) := by
  constructor
  · intro msg; rfl
  · intro raw h
    simp [request, h, networkError]

/-- Witness instantiating C4_network_error_caught: a rejected fetch and
a body whose classification itself throws (the JSON value null). -/
theorem C4_network_error_caught_witness :
    request (Except.ok Json.null) = ApiResult.fail (some
      (errEnvelope (Json.str "Network error or server unreachable.")
        "NETWORK_ERROR" none)) :=
  C4_network_error_caught.2 Json.null rfl

/-- C10: when the `success` field is present and falsy, the `errors`
field is absent or falsy and the `error` key is absent, the normalizer
returns `{success:false, error: undefined}`: the error field of the
result is absent rather than a structured error object; in particular
`{success:false}` yields exactly that shape. -/
theorem C10_error_undefined :
    (∀ (raw sv : Json), getField raw "success" = some sv →
      jsTruthy sv = false →
      truthyOpt (getField raw "errors") = false →
      getField raw "error" = none →
      request (Except.ok raw) = ApiResult.fail none)
    ∧ request (Except.ok (Json.obj [("success", Json.bool false)])) =
        ApiResult.fail none := by
  refine ⟨?_, rfl⟩
  intro raw sv hs hfal herrs herr
  have hn := isNull_false_of_getField hs
  simp [request, classify, hn, hs, hfal, herrs, herr]

/-- Witness instantiating C10_error_undefined at `{success:false}`. -/
theorem C10_error_undefined_witness :
    request (Except.ok (Json.obj [("success", Json.bool false)])) =
      ApiResult.fail none :=
  C10_error_undefined.1 (Json.obj [("success", Json.bool false)])
    (Json.bool false) rfl rfl rfl rfl

/-- JavaScript truthiness of a rule result (a string or `undefined`):
only a non-empty string is truthy. -/
def strTruthy : Option String → Bool
  | none => false
  | some s => s != ""

/-- The function `validate(value, rules)` from src/utils/validation.js
lines 97-105: runs the rules of the chain in order and returns the first
result that is truthy as tested by `if (error)`; `none` models
`undefined` once all rules have run. -/
def validate {α : Type} (value : α) : List (α → Option String) → Option String
  | [] => none
  | rule :: rest =>
    if strTruthy (rule value) then rule value else validate value rest

/-- C2 counterexample: a rule that returns the empty string has a result
that is not `undefined`, yet `validate` skips it (the `if (error)` check
tests truthiness) and returns a later rule message, and a chain whose
single rule returns the empty string makes `validate` return `undefined`
even though not every rule returned `undefined`. -/
theorem C2_counterexample :
    validate (0 : Nat) [fun _ => some "", fun _ => some "second"] =
      some "second"
    ∧ (some "second" : Option String) ≠ some ""
    ∧ validate (0 : Nat) [fun _ => some ""] = none
    ∧ (fun (_ : Nat) => (some "" : Option String)) 0 ≠ none := by
  refine ⟨rfl, by simp, rfl, by simp⟩

/-- C2 (amended): provided no rule of the chain returns the empty string
on the value (every rule message is either `undefined` or a truthy
string), `validate` returns the message of the first rule in list order
whose result is not `undefined`, never the message of a later rule, and
returns `undefined` exactly when every rule of the chain returns
`undefined` on the value. -/
theorem C2_validate_first_failure {α : Type} (v : α) :
    (∀ (pre : List (α → Option String)) (rule : α → Option String)
        (post : List (α → Option String)),
      (∀ r ∈ pre, r v = none) → rule v ≠ none → rule v ≠ some "" →
      validate v (pre ++ rule :: post) = rule v)
    ∧ (∀ rules : List (α → Option String),
        (∀ r ∈ rules, r v ≠ some "") →
        (validate v rules = none ↔ ∀ r ∈ rules, r v = none)) := by
  constructor
  · intro pre rule post hpre hne hne'
    induction pre with
    | nil =>
      rcases h : rule v with _ | e
      · exact absurd h hne
      · have he : e ≠ "" := by
          intro hcon; exact hne' (by simp [h, hcon])
        simp [validate, strTruthy, h, he]
    | cons r pre ih =>
      have hr : r v = none := hpre r (by simp)
      have : validate v ((r :: pre) ++ rule :: post) =
          validate v (pre ++ rule :: post) := by
        simp [validate, hr, strTruthy]
      rw [this]
      exact ih (fun r' hr' => hpre r' (by simp [hr']))
  · intro rules hall
    induction rules with
    | nil => simp [validate]
    | cons r rest ih =>
      rcases h : r v with _ | e
      · have : validate v (r :: rest) = validate v rest := by
          simp [validate, h, strTruthy]
        rw [this]
        rw [ih (fun r' hr' => hall r' (by simp [hr']))]
        constructor
        · intro hrest r' hr'
          rcases List.mem_cons.mp hr' with rfl | hr'
          · exact h
          · exact hrest r' hr'
        · intro hrest r' hr'
          exact hrest r' (by simp [hr'])
      · have he : e ≠ "" := by
          intro hcon
          exact hall r (by simp) (by simp [h, hcon])
        have : validate v (r :: rest) = some e := by
          simp [validate, h, strTruthy, he]
        rw [this]
        constructor
        · intro hcon; cases hcon
        · intro hrest
          have := hrest r (by simp)
          rw [h] at this
          cases this

/-- Witness instantiating C2_validate_first_failure on a chain whose
first rule passes and whose second rule fails. -/
theorem C2_validate_first_failure_witness :
    validate (0 : Nat) [fun _ => none, fun _ => some "boom"] = some "boom" :=
  (C2_validate_first_failure 0).1 [fun _ => none] (fun _ => some "boom") []
    (by intro r hr; rcases List.mem_singleton.mp hr with rfl; rfl)
    (by simp) (by simp)

/-- The regex test `/^\d+$/.test(value)`: true exactly of non-empty
strings made of decimal digits only. -/
def digitsTest (s : String) : Bool :=
  s != "" && s.toList.all Char.isDigit

/-- The rule `isNumericAndLength` from src/utils/validation.js lines
67-72 with its default message (the optional message parameter of the
source is fixed at its default value): when the value is truthy
(non-empty) and either fails the digits regex or has the wrong length,
it returns the message, otherwise `undefined`. -/
def isNumericAndLength (value : String) (len : Nat) : Option String :=
  if value != "" && (!digitsTest value || value.length != len) then
    some ("Must be a " ++ toString len ++ "-digit number.")
  else
    none

/-- C9: the OTP rule fails on "12345" with required length 6 (wrong
length), fails on "abcdef" with required length 6 (non-numeric), passes
on "123456" with required length 6, and in general on a non-empty string
it fails exactly when the string is not made of exactly n decimal
digits. -/
theorem C9_isNumericAndLength :
    (isNumericAndLength "12345" 6).isSome = true
    ∧ (isNumericAndLength "abcdef" 6).isSome = true
    ∧ isNumericAndLength "123456" 6 = none
    ∧ ∀ (v : String) (n : Nat), v ≠ "" →
        ((isNumericAndLength v n).isSome = true ↔
          ¬(v.toList.all Char.isDigit = true ∧ v.length = n)) := by
  refine ⟨by decide, by decide, by decide, ?_⟩
  intro v n hv
  have hv' : (v != "") = true := by simpa using hv
  simp only [isNumericAndLength, digitsTest, hv']
  rcases hd : v.toList.all Char.isDigit with _ | _
  · simp [hd]
  · rcases hl : decide (v.length = n) with _ | _
    · have : v.length ≠ n := by simpa using hl
      simp [hd, this]
    · have : v.length = n := by simpa using hl
      simp [hd, this]

/-- Witness instantiating the general part of C9_isNumericAndLength at
the value "777" and length 6. -/
theorem C9_isNumericAndLength_witness :
    (isNumericAndLength "777" 6).isSome = true ↔
      ¬(("777" : String).toList.all Char.isDigit = true ∧
        ("777" : String).length = 6) :=
  C9_isNumericAndLength.2.2.2 "777" 6 (by decide)

/-- The page value held by currentPage in App.js:
`{ name: pageName, data }`. -/
structure PageState where
  name : String
  data : Option Json

/-- The switch body of `redirectToDashboard` in App.js (lines 169-190)
on a string role value. -/
def redirectRole (s : String) : PageState :=
  if s = "super_admin" then ⟨"dashboard", none⟩
  else if s = "school_admin" then ⟨"dashboard", none⟩
  else if s = "hod" then ⟨"dashboard", none⟩
  else if s = "teacher" then ⟨"dashboard", none⟩
  else if s = "student" then ⟨"dashboard", none⟩
  else ⟨"login", none⟩

/-- The function `redirectToDashboard(role)` from App.js, modelled by
the page value it passes to setCurrentPage. The argument is the `role`
field of a JSON response, so it may be any JSON value or absent
(`none` models `undefined`); a switch case label matches only under JS
strict equality, so any non-string role falls to the default case. -/
def redirectToDashboard : Option Json → PageState
  | some (Json.str s) => redirectRole s
  | _ => ⟨"login", none⟩

/-- JavaScript loose `x == null`: holds of `null` and `undefined`.
State fields cleared with `setX(null)` are modelled as `none`, but a
field set from a JSON response can also hold the JSON value null. -/
def jsNullish : Option Json → Bool
  | none => true
  | some Json.null => true
  | some _ => false

/-- The application state of App.js that the claims are about: the
durable storage slot authToken, the token / user / loading / flash /
currentPage React state, the isInitialMount ref guarding the mount-time
session check, and an instrumentation counter of issued GET /user
session-check calls. Per-form field state (input values and field error
maps) is local to the form components and not part of this state. -/
structure AppState where
  storedToken : Option Json
  token : Option Json
  user : Option Json
  loading : Bool
  flash : Option (Json × String)
  page : PageState
  isInitialMount : Bool
  checkCalls : Nat

/-- The state right after the App component initializes: user null,
token read from storage, loading true, page login, mount ref true. -/
def initialState (stored : Option Json) : AppState :=
  { storedToken := stored
    token := stored
    user := none
    loading := true
    flash := none
    page := ⟨"login", none⟩
    isInitialMount := true
    checkCalls := 0 }

/-- One invocation of the `checkAuth` effect body from App.js (lines
135-167), parameterised by the normalized response the GET /user call
would produce. The body runs only while the isInitialMount ref is true
and clears the ref before anything else; `checkCalls` counts the issued
/user requests. In the success branch, when the response carries no
data payload the expression `response.data.role` throws a TypeError
after setUser has already run, so the navigation and the
`setLoading(false)` that follow are skipped. -/
def checkAuth (resp : ApiResult) (s : AppState) : AppState :=
  if s.isInitialMount then
    let s1 := { s with isInitialMount := false }
    if truthyOpt s1.token then
      match resp with
      | ApiResult.ok data =>
        let s2 := { s1 with checkCalls := s1.checkCalls + 1, user := data }
        match data with
        | some d =>
          { s2 with page := redirectToDashboard (getField d "role"),
                    loading := false }
        | none => s2
      | ApiResult.fail _ =>
        { s1 with checkCalls := s1.checkCalls + 1,
                  token := none,
                  storedToken := none,
                  flash := some (Json.str
                    "Your session has expired. Please log in again.", "danger"),
                  page := ⟨"login", none⟩,
                  loading := false }
    else
      { s1 with page := ⟨"login", none⟩, loading := false }
  else s

/-- Events that can hit the App state after mount: further invocations
of the checkAuth effect body (re-renders cannot re-run an
empty-dependency effect, but the model lets an adversary try), and
arbitrary writes to the session and page state. -/
inductive AppEvent where
  | effectRun (resp : ApiResult) : AppEvent
  | writeToken (t : Option Json) : AppEvent
  | writeUser (u : Option Json) : AppEvent
  | writePage (p : PageState) : AppEvent
  | writeFlash (f : Option (Json × String)) : AppEvent

/-- Apply one event to the App state. -/
def appStep (s : AppState) : AppEvent → AppState
  | AppEvent.effectRun resp => checkAuth resp s
  | AppEvent.writeToken t => { s with token := t }
  | AppEvent.writeUser u => { s with user := u }
  | AppEvent.writePage p => { s with page := p }
  | AppEvent.writeFlash f => { s with flash := f }

/-- Apply a sequence of events to the App state. -/
def runEvents (s : AppState) (evs : List AppEvent) : AppState :=
  evs.foldl appStep s

/-- C6: redirectToDashboard maps each of the five recognized roles to
the page `{name:"dashboard", data:null}` and every other role value,
including a missing or non-string role, to `{name:"login", data:null}`. -/
theorem C6_redirect_roles :
    (∀ s : String,
      s ∈ ["super_admin", "school_admin", "hod", "teacher", "student"] →
      redirectToDashboard (some (Json.str s)) = ⟨"dashboard", none⟩)
    ∧ (∀ role : Option Json,
        role ∉ [some (Json.str "super_admin"), some (Json.str "school_admin"),
          some (Json.str "hod"), some (Json.str "teacher"),
          some (Json.str "student")] →
        redirectToDashboard role = ⟨"login", none⟩) := by
  constructor
  · intro s hs
    simp only [List.mem_cons, List.not_mem_nil, or_false] at hs
    rcases hs with rfl | rfl | rfl | rfl | rfl <;> rfl
  · intro role hrole
    rcases role with _ | j
    · rfl
    · rcases j with _ | b | n | s | xs | fs
      · rfl
      · rfl
      · rfl
      · simp only [List.mem_cons, List.not_mem_nil, or_false,
          Option.some.injEq, Json.str.injEq] at hrole
        push_neg at hrole
        obtain ⟨h1, h2, h3, h4, h5⟩ := hrole
        simp [redirectToDashboard, redirectRole, h1, h2, h3, h4, h5]
      · rfl
      · rfl

/-- Witness instantiating C6_redirect_roles at a missing role. -/
theorem C6_redirect_roles_witness :
    redirectToDashboard none = ⟨"login", none⟩ :=
  C6_redirect_roles.2 none (by simp)

/-- Once the isInitialMount ref is false, an invocation of the checkAuth
effect body leaves the state untouched. -/
theorem checkAuth_not_mount (resp : ApiResult) (s : AppState)
    (h : s.isInitialMount = false) : checkAuth resp s = s := by
  simp [checkAuth, h]

/-- An invocation of the checkAuth effect body on the initial mount
clears the isInitialMount ref in every branch. -/
theorem checkAuth_flag (resp : ApiResult) (s : AppState)
    (h : s.isInitialMount = true) :
    (checkAuth resp s).isInitialMount = false := by
  unfold checkAuth
  rw [h]
  by_cases ht : truthyOpt s.token
  · cases resp with
    | ok data => cases data <;> simp [ht]
    | fail e => simp [ht]
  · simp [ht]

/-- An invocation of the checkAuth effect body issues at most one
session-check call. -/
theorem checkAuth_calls (resp : ApiResult) (s : AppState) :
    (checkAuth resp s).checkCalls ≤ s.checkCalls + 1 := by
  unfold checkAuth
  by_cases hm : s.isInitialMount
  · rw [hm]
    by_cases ht : truthyOpt s.token
    · cases resp with
      | ok data => cases data <;> simp [ht]
      | fail e => simp [ht]
    · simp [ht]
  · simp [hm]

/-- The write events do not touch the call counter or the mount ref, and
effect invocations after the first are no-ops, so once the mount ref is
false the call counter is frozen along any event sequence. -/
theorem runEvents_frozen (evs : List AppEvent) (s : AppState)
    (h : s.isInitialMount = false) :
    (runEvents s evs).checkCalls = s.checkCalls
    ∧ (runEvents s evs).isInitialMount = false := by
  induction evs generalizing s with
  | nil => exact ⟨rfl, h⟩
  | cons e evs ih =>
    have hstep : appStep s e = s ∨
        ((appStep s e).checkCalls = s.checkCalls
          ∧ (appStep s e).isInitialMount = false) := by
      cases e with
      | effectRun resp => exact Or.inl (checkAuth_not_mount resp s h)
      | writeToken t => exact Or.inr ⟨rfl, h⟩
      | writeUser u => exact Or.inr ⟨rfl, h⟩
      | writePage p => exact Or.inr ⟨rfl, h⟩
      | writeFlash f => exact Or.inr ⟨rfl, h⟩
    rcases hstep with heq | ⟨hc, hf⟩
    · simpa [runEvents, List.foldl_cons, heq] using ih s h
    · have := ih (appStep s e) hf
      simp only [runEvents, List.foldl_cons] at *
      exact ⟨by rw [this.1, hc], this.2⟩

/-- Along any event sequence started from a state on its initial mount
with no call issued yet, at most one session-check call is ever
issued. -/
theorem runEvents_calls_le (evs : List AppEvent) (s : AppState)
    (h1 : s.isInitialMount = true) (h2 : s.checkCalls = 0) :
    (runEvents s evs).checkCalls ≤ 1 := by
  induction evs generalizing s with
  | nil => simp [runEvents, h2]
  | cons e evs ih =>
    cases e with
    | effectRun resp =>
      have hflag := checkAuth_flag resp s h1
      have hcalls : (checkAuth resp s).checkCalls ≤ 1 := by
        have := checkAuth_calls resp s
        omega
      have hfr := runEvents_frozen evs (checkAuth resp s) hflag
      simp only [runEvents, List.foldl_cons]
      have : (runEvents (checkAuth resp s) evs).checkCalls =
          (checkAuth resp s).checkCalls := hfr.1
      simp only [runEvents] at this
      simp only [appStep]
      omega
    | writeToken t =>
      simpa [runEvents, List.foldl_cons, appStep] using
        ih { s with token := t } h1 h2
    | writeUser u =>
      simpa [runEvents, List.foldl_cons, appStep] using
        ih { s with user := u } h1 h2
    | writePage p =>
      simpa [runEvents, List.foldl_cons, appStep] using
        ih { s with page := p } h1 h2
    | writeFlash f =>
      simpa [runEvents, List.foldl_cons, appStep] using
        ih { s with flash := f } h1 h2

/-- C5: from application start, no matter how many times the effect body
is re-invoked or the session state is written, at most one session-check
call is ever issued; and on an initial mount holding a stored token that
the check rejects, exactly one call is made, the token state and the
stored token are cleared, the page becomes login, and no later event can
raise the call count. -/
theorem C5_session_check_once :
    (∀ (stored : Option Json) (evs : List AppEvent),
      (runEvents (initialState stored) evs).checkCalls ≤ 1)
    ∧ (∀ (t : Json) (e : Option Json) (evs : List AppEvent),
        jsTruthy t = true →
        (checkAuth (ApiResult.fail e) (initialState (some t))).checkCalls = 1
        ∧ (checkAuth (ApiResult.fail e) (initialState (some t))).token = none
        ∧ (checkAuth (ApiResult.fail e)
            (initialState (some t))).storedToken = none
        ∧ (checkAuth (ApiResult.fail e) (initialState (some t))).page =
            ⟨"login", none⟩
        ∧ (runEvents (checkAuth (ApiResult.fail e) (initialState (some t)))
            evs).checkCalls = 1) := by
  constructor
  · intro stored evs
    exact runEvents_calls_le evs (initialState stored) rfl rfl
  · intro t e evs ht
    have hstate : checkAuth (ApiResult.fail e) (initialState (some t)) =
        { initialState (some t) with
            isInitialMount := false, checkCalls := 1,
            token := none, storedToken := none,
            flash := some (Json.str
              "Your session has expired. Please log in again.", "danger"),
            page := ⟨"login", none⟩, loading := false } := by
      simp [checkAuth, initialState, truthyOpt, ht]
    refine ⟨by rw [hstate], by rw [hstate], by rw [hstate],
      by rw [hstate], ?_⟩
    have hflag : (checkAuth (ApiResult.fail e)
        (initialState (some t))).isInitialMount = false := by rw [hstate]
    have := (runEvents_frozen evs _ hflag).1
    rw [this, hstate]

/-- Witness instantiating C5_session_check_once with the stored token
"tok", a failing check response, and one further effect invocation. -/
theorem C5_session_check_once_witness :
    (checkAuth (ApiResult.fail none)
      (initialState (some (Json.str "tok")))).checkCalls = 1
    ∧ (checkAuth (ApiResult.fail none)
        (initialState (some (Json.str "tok")))).token = none
    ∧ (checkAuth (ApiResult.fail none)
        (initialState (some (Json.str "tok")))).storedToken = none
    ∧ (checkAuth (ApiResult.fail none)
        (initialState (some (Json.str "tok")))).page = ⟨"login", none⟩
    ∧ (runEvents (checkAuth (ApiResult.fail none)
        (initialState (some (Json.str "tok"))))
        [AppEvent.effectRun (ApiResult.fail none)]).checkCalls = 1 :=
  C5_session_check_once.2 (Json.str "tok") none
    [AppEvent.effectRun (ApiResult.fail none)] rfl

/-- The shared failure branch of the form submit handlers: they set the
form-local field errors (not part of AppState) from
`response.error.details` and then flash `response.error.message` with a
handler-specific default. When the error value is absent or null, the
property access `response.error.details` throws a TypeError (`none`),
and no state is changed. -/
def failureFlash (e : Option Json) (defaultMsg : String) (s : AppState) :
    Option AppState :=
  match e with
  | none => none
  | some v =>
    if isNull v then none
    else some { s with
      flash := some ((jsOr (getField v "message") (Json.str defaultMsg),
        "danger")) }

/-- The outcome handling of `handleResetPassword` in ResetPasswordForm
(src/pages/Auth/ForgotPasswordForm.jsx lines 162-168), applied to the
App state. On success it flashes `response.data.message` (default
"Password updated successfully!") and navigates to login; it has no
access to setToken or setUser. When the success payload is absent, the
access `response.data.message` throws before the navigation (`none`). -/
def handleResetPasswordResult (resp : ApiResult) (s : AppState) :
    Option AppState :=
  match resp with
  | ApiResult.ok none => none
  | ApiResult.ok (some d) =>
    some { s with
      flash := some ((jsOr (getField d "message")
        (Json.str "Password updated successfully!"), "success")),
      page := ⟨"login", none⟩ }
  | ApiResult.fail e =>
    failureFlash e "Password reset failed. Please try again." s

/-- C7: a reset-password submission whose normalized response is a
success with a data payload moves the page to `{name:"login",
data:null}` and establishes no session: the handler leaves the token
state, the user state and the stored token exactly as they were. -/
theorem C7_reset_success_no_session (s : AppState) (d : Json) :
    ∃ s', handleResetPasswordResult (ApiResult.ok (some d)) s = some s'
      ∧ s'.page = ⟨"login", none⟩
      ∧ s'.token = s.token
      ∧ s'.user = s.user
      ∧ s'.storedToken = s.storedToken := by
  exact ⟨_, rfl, rfl, rfl, rfl, rfl⟩

/-- The operations of the session / page state machine: the mount-time
session check, the outcome handling of the login, profile
password-change, reset-password, forgot-password and verify-otp
submissions, the logout action, and user navigation. Operations driven
by the page components carry the normalized response of their API call
and are no-ops while the loading gate is up, because App renders no
form until the mount check clears it. -/
inductive AppOp where
  | mountCheck (resp : ApiResult) : AppOp
  | loginResult (resp : ApiResult) : AppOp
  | logout : AppOp
  | profileChangeResult (resp : ApiResult) : AppOp
  | resetPasswordResult (resp : ApiResult) : AppOp
  | forgotPasswordResult (email : String) (resp : ApiResult) : AppOp
  | verifyOtpResult (email : String) (otp : String) (resp : ApiResult) : AppOp
  | navigate (p : PageState) : AppOp

/-- The success branch of `handleSubmit` in LoginForm
(src/pages/Auth/ForgotPasswordForm.jsx lines 260-266): store the token
value from `response.data.access_token`, set the token and user state,
flash "Login successful!", then navigate via
`redirectToDashboard(response.data.user.role)`. When `response.data` is
absent the very first property access throws and nothing changes; when
`response.data.user` is absent or null only the final navigation
throws, after the session fields were already written. -/
def loginResultHandler (resp : ApiResult) (s : AppState) : AppState :=
  match resp with
  | ApiResult.ok none => s
  | ApiResult.ok (some d) =>
    { s with
      storedToken := getField d "access_token",
      token := getField d "access_token",
      user := getField d "user",
      flash := some ((Json.str "Login successful!", "success")),
      page :=
        match getField d "user" with
        | some u =>
          if isNull u then s.page
          else redirectToDashboard (getField u "role")
        | none => s.page }
  | ApiResult.fail e =>
    (failureFlash e "Login failed. Please try again." s).getD s

/-- The `handleLogout` action of the Dashboard component: clear the
stored token, the token state and the user state, flash the logout
notice and navigate to login. -/
def logoutHandler (s : AppState) : AppState :=
  { s with
    storedToken := none, token := none, user := none,
    flash := some ((Json.str "Logged out successfully.", "success")),
    page := ⟨"login", none⟩ }

/-- The outcome handling of `handleChangePassword` in ProfileSettings
(src/pages/Profile/ProfileSettings.jsx): on success, flash the message,
clear the stored token, the token state and the user state, and
navigate to login; on failure, set the form errors and flash. -/
def profileChangeHandler (resp : ApiResult) (s : AppState) : AppState :=
  match resp with
  | ApiResult.ok none => s
  | ApiResult.ok (some d) =>
    { s with
      flash := some ((jsOr (getField d "message")
        (Json.str "Password updated successfully! Please log in again."),
        "success")),
      storedToken := none, token := none, user := none,
      page := ⟨"login", none⟩ }
  | ApiResult.fail e =>
    (failureFlash e "Failed to update password. Please try again." s).getD s

/-- The outcome handling of `handleRequestOtp` in ForgotPasswordForm:
on success, flash and navigate to verify-otp carrying the email. -/
def forgotPasswordHandler (email : String) (resp : ApiResult)
    (s : AppState) : AppState :=
  match resp with
  | ApiResult.ok none => s
  | ApiResult.ok (some d) =>
    { s with
      flash := some ((jsOr (getField d "message")
        (Json.str "OTP sent successfully!"), "success")),
      page := ⟨"verify-otp", some (Json.obj [("email", Json.str email)])⟩ }
  | ApiResult.fail e =>
    (failureFlash e "Failed to send OTP. Please try again." s).getD s

/-- The outcome handling of `handleVerifyOtp` in OTPVerificationForm:
on success, flash and navigate to reset-password carrying email and
otp. -/
def verifyOtpHandler (email otp : String) (resp : ApiResult)
    (s : AppState) : AppState :=
  match resp with
  | ApiResult.ok none => s
  | ApiResult.ok (some d) =>
    { s with
      flash := some ((jsOr (getField d "message")
        (Json.str "OTP verified successfully!"), "success")),
      page := ⟨"reset-password", some (Json.obj
        [("email", Json.str email), ("otp", Json.str otp)])⟩ }
  | ApiResult.fail e =>
    (failureFlash e "OTP verification failed. Please try again." s).getD s

/-- Apply one operation to the App state. Operations driven by the page
components are no-ops while the loading gate is up, because App renders
no form until the mount check clears it. -/
def applyOp (s : AppState) : AppOp → AppState
  | AppOp.mountCheck resp => checkAuth resp s
  | AppOp.loginResult resp =>
    if s.loading then s else loginResultHandler resp s
  | AppOp.logout =>
    if s.loading then s else logoutHandler s
  | AppOp.profileChangeResult resp =>
    if s.loading then s else profileChangeHandler resp s
  | AppOp.resetPasswordResult resp =>
    if s.loading then s else (handleResetPasswordResult resp s).getD s
  | AppOp.forgotPasswordResult email resp =>
    if s.loading then s else forgotPasswordHandler email resp s
  | AppOp.verifyOtpResult email otp resp =>
    if s.loading then s else verifyOtpHandler email otp resp s
  | AppOp.navigate p =>
    if s.loading then s else { s with page := p }

/-- Apply a sequence of operations to the App state. -/
def runOps (s : AppState) (ops : List AppOp) : AppState :=
  ops.foldl applyOp s

/-- The session invariant of the spec: a non-null user implies a
non-null token. -/
def SessionInv (s : AppState) : Prop :=
  jsNullish s.user = false → jsNullish s.token = false

/-- The inductive strengthening of the session invariant: while the
mount ref is still set the user is still null and the loading gate is
still up (so no form operation has run yet). -/
def AppInv (s : AppState) : Prop :=
  SessionInv s
  ∧ (s.isInitialMount = true → s.user = none)
  ∧ (s.isInitialMount = true → s.loading = true)

/-- Environment well-formedness of an operation, per the external
interface table of the spec: a successful login response carries an
access_token alongside its user object. -/
def WfOp : AppOp → Prop
  | AppOp.loginResult (ApiResult.ok (some d)) =>
    jsNullish (getField d "user") = false →
    jsNullish (getField d "access_token") = false
  | _ => True

/-- A truthy value is not nullish. -/
theorem jsNullish_false_of_truthy {o : Option Json}
    (h : truthyOpt o = true) : jsNullish o = false := by
  rcases o with _ | v
  · simp [truthyOpt] at h
  · cases v <;> simp_all [truthyOpt, jsTruthy, jsNullish]

/-- A state agreeing with an invariant state on user, token, mount ref
and loading gate satisfies the invariant. -/
theorem AppInv_frame {s s' : AppState} (h : AppInv s)
    (hu : s'.user = s.user) (ht : s'.token = s.token)
    (hm : s'.isInitialMount = s.isInitialMount)
    (hl : s'.loading = s.loading) : AppInv s' := by
  obtain ⟨h1, h2, h3⟩ := h
  refine ⟨?_, ?_, ?_⟩
  · intro hn
    rw [ht]
    exact h1 (by rw [← hu]; exact hn)
  · intro hf
    rw [hu]
    exact h2 (by rw [← hm]; exact hf)
  · intro hf
    rw [hl]
    exact h3 (by rw [← hm]; exact hf)

/-- The shared failure branch preserves the invariant: it only sets the
flash message. -/
theorem AppInv_failureFlash (e : Option Json) (msg : String)
    (s : AppState) (h : AppInv s) :
    AppInv ((failureFlash e msg s).getD s) := by
  rcases e with _ | v
  · exact h
  · by_cases hnull : isNull v
    · have heq : failureFlash (some v) msg s = none := by
        simp [failureFlash, hnull]
      rw [heq]
      exact h
    · have heq : (failureFlash (some v) msg s).getD s =
          { s with
            flash := some ((jsOr (getField v "message")
              (Json.str msg), "danger")) } := by
        simp [failureFlash, hnull]
      rw [heq]
      exact AppInv_frame h rfl rfl rfl rfl

/-- Every operation of the machine preserves the strengthened
invariant, given a well-formed response. -/
theorem applyOp_preserves (s : AppState) (op : AppOp)
    (h : AppInv s) (hwf : WfOp op) : AppInv (applyOp s op) := by
  have hgate : ∀ s' : AppState, (¬ s.loading = true → AppInv s') →
      AppInv (if s.loading then s else s') := by
    intro s' hs'
    by_cases hl : s.loading
    · simpa [hl] using h
    · simpa [hl] using hs' hl
  have hmfalse : ¬ s.loading = true → s.isInitialMount = false := by
    intro hl
    rcases hfl : s.isInitialMount with _ | _
    · rfl
    · exact absurd (h.2.2 hfl) hl
  cases op with
  | mountCheck resp =>
    show AppInv (checkAuth resp s)
    by_cases hm : s.isInitialMount = true
    · have hu : s.user = none := h.2.1 hm
      by_cases ht : truthyOpt s.token = true
      · cases resp with
        | ok data =>
          cases data with
          | none =>
            have hres : checkAuth (ApiResult.ok none) s =
                { s with
                  isInitialMount := false,
                  checkCalls := s.checkCalls + 1, user := none } := by
              simp [checkAuth, hm, ht]
            rw [hres]
            exact ⟨by intro hn; simp [jsNullish] at hn,
              by intro hf; simp at hf, by intro hf; simp at hf⟩
          | some d =>
            have hres : checkAuth (ApiResult.ok (some d)) s =
                { s with
                  isInitialMount := false,
                  checkCalls := s.checkCalls + 1, user := some d,
                  page := redirectToDashboard (getField d "role"),
                  loading := false } := by
              simp [checkAuth, hm, ht]
            rw [hres]
            refine ⟨?_, by intro hf; simp at hf, by intro hf; simp at hf⟩
            intro _
            have := jsNullish_false_of_truthy ht
            simpa using this
        | fail e =>
          have hres : checkAuth (ApiResult.fail e) s =
              { s with
                isInitialMount := false,
                checkCalls := s.checkCalls + 1,
                token := none, storedToken := none,
                flash := some ((Json.str
                  "Your session has expired. Please log in again.",
                  "danger")),
                page := ⟨"login", none⟩, loading := false } := by
            simp [checkAuth, hm, ht]
          rw [hres]
          exact ⟨by intro hn; rw [hu] at hn; simp [jsNullish] at hn,
            by intro hf; simp at hf, by intro hf; simp at hf⟩
      · have hres : checkAuth resp s =
            { s with
              isInitialMount := false,
              page := ⟨"login", none⟩, loading := false } := by
          unfold checkAuth
          rw [hm]
          simp [ht]
        rw [hres]
        refine ⟨?_, by intro hf; simp at hf, by intro hf; simp at hf⟩
        intro hn
        exact h.1 (by simpa using hn)
    · rw [checkAuth_not_mount resp s (by simpa using hm)]
      exact h
  | loginResult resp =>
    show AppInv (if s.loading then s else loginResultHandler resp s)
    refine hgate _ ?_
    intro hl
    cases resp with
    | ok data =>
      cases data with
      | none => exact h
      | some d =>
        show AppInv _
        refine ⟨?_, ?_, ?_⟩
        · intro hn
          simp only [loginResultHandler] at hn ⊢
          exact hwf hn
        · intro hf
          have hf' : s.isInitialMount = true := by
            simpa [loginResultHandler] using hf
          exact absurd (hmfalse hl) (by simp [hf'])
        · intro hf
          have hf' : s.isInitialMount = true := by
            simpa [loginResultHandler] using hf
          exact absurd (hmfalse hl) (by simp [hf'])
    | fail e => exact AppInv_failureFlash e _ s h
  | logout =>
    show AppInv (if s.loading then s else logoutHandler s)
    refine hgate _ ?_
    intro hl
    refine ⟨by intro hn; simp [logoutHandler, jsNullish] at hn, ?_, ?_⟩
    · intro hf
      simp [logoutHandler]
    · intro hf
      have hf' : s.isInitialMount = true := by
        simpa [logoutHandler] using hf
      exact absurd (hmfalse hl) (by simp [hf'])
  | profileChangeResult resp =>
    show AppInv (if s.loading then s else profileChangeHandler resp s)
    refine hgate _ ?_
    intro hl
    cases resp with
    | ok data =>
      cases data with
      | none => exact h
      | some d =>
        refine ⟨by intro hn; simp [profileChangeHandler, jsNullish] at hn,
          ?_, ?_⟩
        · intro hf
          simp [profileChangeHandler]
        · intro hf
          have hf' : s.isInitialMount = true := by
            simpa [profileChangeHandler] using hf
          exact absurd (hmfalse hl) (by simp [hf'])
    | fail e => exact AppInv_failureFlash e _ s h
  | resetPasswordResult resp =>
    show AppInv (if s.loading then s
      else (handleResetPasswordResult resp s).getD s)
    refine hgate _ ?_
    intro hl
    cases resp with
    | ok data =>
      cases data with
      | none => exact h
      | some d =>
        have heq : (handleResetPasswordResult (ApiResult.ok (some d))
            s).getD s =
            { s with
              flash := some ((jsOr (getField d "message")
                (Json.str "Password updated successfully!"), "success")),
              page := ⟨"login", none⟩ } := by
          simp [handleResetPasswordResult]
        rw [heq]
        exact AppInv_frame h rfl rfl rfl rfl
    | fail e =>
      show AppInv ((failureFlash e _ s).getD s)
      exact AppInv_failureFlash e _ s h
  | forgotPasswordResult email resp =>
    show AppInv (if s.loading then s else forgotPasswordHandler email resp s)
    refine hgate _ ?_
    intro hl
    cases resp with
    | ok data =>
      cases data with
      | none => exact h
      | some d => exact AppInv_frame h rfl rfl rfl rfl
    | fail e => exact AppInv_failureFlash e _ s h
  | verifyOtpResult email otp resp =>
    show AppInv (if s.loading then s else verifyOtpHandler email otp resp s)
    refine hgate _ ?_
    intro hl
    cases resp with
    | ok data =>
      cases data with
      | none => exact h
      | some d => exact AppInv_frame h rfl rfl rfl rfl
    | fail e => exact AppInv_failureFlash e _ s h
  | navigate p =>
    show AppInv (if s.loading then s else { s with page := p })
    refine hgate _ ?_
    intro hl
    exact AppInv_frame h rfl rfl rfl rfl

/-- The strengthened invariant holds along every well-formed run. -/
theorem runOps_preserves (ops : List AppOp) (s : AppState)
    (h : AppInv s) (hwf : ∀ op ∈ ops, WfOp op) : AppInv (runOps s ops) := by
  induction ops generalizing s with
  | nil => exact h
  | cons op ops ih =>
    have h1 : AppInv (applyOp s op) :=
      applyOp_preserves s op h (hwf op (by simp))
    have := ih (applyOp s op) h1 (fun op' hop' => hwf op' (by simp [hop']))
    simpa [runOps, List.foldl_cons] using this

/-- C8: the invariant "user is non-null implies token is non-null" is
preserved by every operation of the session / page state machine, given
well-formed login responses (a success payload that carries a user also
carries an access_token, per the external interface table); consequently
every state reachable from application start satisfies it: transitions
that set a non-null user (login success, initial token verification
success) have a non-null token already set or set it in the same step,
and transitions that clear the token (logout, session expiry, profile
password change) clear the user or leave it null. -/
theorem C8_session_invariant :
    (∀ (s : AppState) (op : AppOp), AppInv s → WfOp op →
      AppInv (applyOp s op))
    ∧ (∀ (stored : Option Json) (ops : List AppOp),
        (∀ op ∈ ops, WfOp op) →
        SessionInv (runOps (initialState stored) ops)) := by
  constructor
  · exact applyOp_preserves
  · intro stored ops hwf
    have hinit : AppInv (initialState stored) := by
      refine ⟨?_, fun _ => rfl, fun _ => rfl⟩
      intro hn
      simp [initialState, jsNullish] at hn
    exact (runOps_preserves ops (initialState stored) hinit hwf).1

/-- A well-formed login success payload used by the C8 witness. -/
def loginDataW : Json :=
  Json.obj [("access_token", Json.str "tok"),
    ("user", Json.obj [("role", Json.str "teacher")])]

/-- Witness instantiating C8_session_invariant on a run that performs
the mount check with a failing response and then a successful login. -/
theorem C8_session_invariant_witness :
    SessionInv (runOps (initialState none)
      [AppOp.mountCheck (ApiResult.fail none),
        AppOp.loginResult (ApiResult.ok (some loginDataW))]) := by
  refine C8_session_invariant.2 none _ ?_
  intro op hop
  simp only [List.mem_cons, List.not_mem_nil, or_false] at hop
  rcases hop with rfl | rfl
  · exact True.intro
  · exact fun _ => rfl

end LmsUi
